import Mathlib

/-!
Verification of the AI-Subtitle-Learner job-orchestration core against its
natural-language specification.  The definitions below are a shallow
embedding of the Python source:

* `app/services/task_manager.py`   — task rows and task-relation edges;
* `app/routers/video.py`           — progress reconciliation and the SSE stream;
* `app/routers/subtitle.py`        — the subtitle-content endpoint;
* `app/core/analyze/japanese_analyzer.py` — token validation and the agent loop;
* `app/core/asr/base.py`, `app/core/asr/whisperx.py`,
  `app/services/subtitle_service.py` — step-cache keys;
* `app/services/video_download_service.py`,
  `app/celery/tasks/subtitle_tasks.py` — failure propagation to the root task.

Machine integers are modelled as `Nat` (Python ints are unbounded; the only
bounded quantity, CRC32, carries explicit masks).  Timestamps are an abstract
monotone clock (`Nat`).  Fallible I/O appears as explicit `Option` parameters.
-/

namespace SubtitleLearner

/-! ## Task model (`app/schemas/common.py`) -/

/-- `TaskStatus` enum: pending / running / completed / failed / cancelled. -/
inductive TaskStatus where
  | pending
  | running
  | completed
  | failed
  | cancelled
deriving DecidableEq, Repr

/-- A task row as persisted by `TaskManager` (`app/database/models.py` /
`TaskResponse`).  `started_at` / `completed_at` are abstract clock readings. -/
structure Task where
  status : TaskStatus
  progress : Nat
  message : Option String
  error : Option String
  output_path : Option String
  started_at : Option Nat
  completed_at : Option Nat
deriving DecidableEq, Repr

/-- The keyword arguments of `TaskManager.update_task`; `none` = argument
omitted (Python `None`). -/
structure UpdateArgs where
  status : Option TaskStatus
  progress : Option Nat
  message : Option String
  error : Option String
  output_path : Option String
deriving DecidableEq, Repr

/-- The `if status:` branch of `TaskManager.update_task` (lines 103–108).
Every `TaskStatus` enum value is a non-empty string, hence truthy, so the
branch runs whenever the argument is supplied. -/
def applyStatus (t : Task) (s : TaskStatus) (now : Nat) : Task :=
  let t := { t with status := s }
  if s = TaskStatus.running ∧ t.started_at = none then
    { t with started_at := some now }
  else if s = TaskStatus.completed ∨ s = TaskStatus.failed then
    { t with completed_at := some now }
  else t

/-- The `if error is not None:` branch of `TaskManager.update_task`
(lines 116–121): a non-empty error string forces status `failed` and stamps
`completed_at` when unset. -/
def applyError (t : Task) (e : String) (now : Nat) : Task :=
  let t := { t with error := some e }
  if e ≠ "" then
    let t := { t with status := TaskStatus.failed }
    if t.completed_at = none then { t with completed_at := some now } else t
  else t

/-- Body of `TaskManager.update_task` applied to an existing row
(`app/services/task_manager.py` lines 103–124), in source order:
status, progress, message, error, output_path. -/
def update_task_apply (t : Task) (a : UpdateArgs) (now : Nat) : Task :=
  let t := match a.status with
    | none => t
    | some s => applyStatus t s now
  let t := match a.progress with
    | none => t
    | some p => { t with progress := p }
  let t := match a.message with
    | none => t
    | some m => { t with message := some m }
  let t := match a.error with
    | none => t
    | some e => applyError t e now
  let t := match a.output_path with
    | none => t
    | some p => { t with output_path := some p }
  t

/-- `TaskManager.update_task` over the whole store: a missing `task_id` logs a
warning and returns without touching the store (lines 98–101); otherwise the
single matching row is rewritten. -/
def update_task (store : String → Option Task) (tid : String) (a : UpdateArgs)
    (now : Nat) : String → Option Task :=
  match store tid with
  | none => store
  | some t => fun k => if k = tid then some (update_task_apply t a now) else store k

/-! ## Task relations (`TaskManager.set_task_relation`) -/

/-- A row of the `task_relations` table. -/
structure Relation where
  task_id : String
  relation_type : String
  related_task_id : String
deriving DecidableEq, Repr

/-- `TaskManager.set_task_relation` (lines 139–178): the first row matching
`(task_id, relation_type)` is updated in place, otherwise a fresh row is
appended. -/
def set_task_relation (rows : List Relation) (tid rt rel : String) : List Relation :=
  match rows with
  | [] => [⟨tid, rt, rel⟩]
  | r :: rs =>
    if r.task_id = tid ∧ r.relation_type = rt then
      { r with related_task_id := rel } :: rs
    else
      r :: set_task_relation rs tid rt rel

/-- Number of stored rows for a given `(task_id, relation_type)` key. -/
def countKey (rows : List Relation) (tid rt : String) : Nat :=
  (rows.filter (fun r => r.task_id = tid ∧ r.relation_type = rt)).length

/-! ## Progress reconciliation (`app/routers/video.py`, `_get_task_status_data`)

Pydantic bounds `progress` to 0..100 (`Field(ge=0, le=100)`), and on that
domain Python `int(p * 0.3)` equals `3 * p / 10` and `int(p * 0.4)` equals
`2 * p / 5` in truncating arithmetic, so the float expressions are embedded
as exact `Nat` divisions. -/

/-- The unified-progress cascade of `_get_task_status_data` (lines 146–190).

Inputs: the root row `task`; the transcribe child row, when a transcribe task
id resolved to a row (`transcribe_task_obj` is initialised to `None` at line
120, so it is always bound); `subtitle_bound` — whether `subtitle_task_id`
was non-`None`, because `subtitle_task_obj` is assigned ONLY inside
`if subtitle_task_id:` (line 126) and is referenced unconditionally at line
153, raising `UnboundLocalError` when the branch was skipped; and the
subtitle child row looked up when bound.

The `elif` chain is evaluated in source order, so the two branches before
line 153 (root Completed / Failed) do return before the unbound reference. -/
def unified_progress (task : Task) (transcribe : Option Task)
    (subtitle_bound : Bool) (subtitle : Option Task) : Except String Nat :=
  if task.status = TaskStatus.completed then Except.ok 100
  else if task.status = TaskStatus.failed then Except.ok task.progress
  else if ¬ subtitle_bound then
    Except.error "UnboundLocalError: subtitle_task_obj"
  else if (subtitle.map (fun st => st.status)) = some TaskStatus.completed then
    Except.ok 100
  else if (subtitle.map (fun st => st.status)) = some TaskStatus.running then
    Except.ok (min (70 + ((subtitle.map (fun st => st.progress)).getD 0) * 3 / 10) 99)
  else if (transcribe.map (fun tt => tt.status)) = some TaskStatus.completed then
    -- line 166 `if subtitle_task_id:` is always true here: reaching this
    -- branch required line 153 not to raise, i.e. `subtitle_task_id` truthy,
    -- so the `else` arm returning 100 (line 171) is unreachable.
    Except.ok 70
  else if (transcribe.map (fun tt => tt.status)) = some TaskStatus.running then
    Except.ok (min (30 + ((transcribe.map (fun tt => tt.progress)).getD 0) * 2 / 5) 69)
  else if task.status = TaskStatus.running then
    Except.ok (min (task.progress * 3 / 10) 29)
  else if task.status = TaskStatus.pending then Except.ok 0
  else Except.ok task.progress

/-! ## SSE status stream (`app/routers/video.py`, `_stream_task_status`)

The generator polls `_get_task_status_data` once per loop iteration with an
`asyncio.sleep(1)` between polls; the wall-clock spacing is abstracted into a
finite list of polled `(status, progress)` snapshots. -/

/-- The poll interval of the stream loop, from `await asyncio.sleep(1)`. -/
def poll_interval_seconds : Nat := 1

/-- One polled `(status, progress)` observation. -/
structure Snapshot where
  status : TaskStatus
  progress : Nat
deriving DecidableEq, Repr

/-- Terminal statuses at which `_stream_task_status` stops pushing
(lines 236–244). -/
def isTerminal (s : TaskStatus) : Bool :=
  s = TaskStatus.completed ∨ s = TaskStatus.failed ∨ s = TaskStatus.cancelled

/-- Outcome of one poll of `_get_task_status_data` inside the stream loop:
a reconciled snapshot, an `HTTPException` (task missing — line 249), or any
other exception (line 254). -/
inductive PollResult where
  | ok (s : Snapshot)
  | httpError (detail : String)
  | exn (detail : String)
deriving DecidableEq, Repr

/-- An event pushed over the SSE connection: a `data:` JSON status event or a
`data:` error payload. -/
inductive SSEEvent where
  | data (s : Snapshot)
  | error (detail : String)
deriving DecidableEq, Repr

/-- The emission loop of `_stream_task_status`: `last = none` encodes
`first_message = True` (initial `last_status = None`, `last_progress = -1`);
a snapshot is pushed when it is the first poll or differs from the last
pushed `(status, progress)` pair, and the loop breaks right after pushing a
terminal snapshot.  An `HTTPException` pushes an error payload and breaks;
any other exception pushes an error payload and keeps polling without
touching `first_message` / `last_status` / `last_progress`. -/
def streamEvents (last : Option Snapshot) : List PollResult → List SSEEvent
  | [] => []
  | PollResult.ok s :: rest =>
    if last = none ∨ some s ≠ last then
      SSEEvent.data s ::
        (if isTerminal s.status then [] else streamEvents (some s) rest)
    else
      streamEvents last rest
  | PollResult.httpError d :: _ => [SSEEvent.error d]
  | PollResult.exn d :: rest => SSEEvent.error d :: streamEvents last rest

/-! ## Python string helpers

`re.sub(r"\s+", "", s)` and `str.strip()` act on Python's whitespace set;
for `str` patterns, `\s` matches the Unicode whitespace characters below. -/

/-- The Unicode whitespace set matched by Python's `\s` on `str` (and
stripped by `str.strip()`). -/
def isPyWhitespace (c : Char) : Bool :=
  let n := c.toNat
  (9 ≤ n ∧ n ≤ 13) ∨ (28 ≤ n ∧ n ≤ 31) ∨ n = 32 ∨ n = 133 ∨ n = 160 ∨
    n = 5760 ∨ (8192 ≤ n ∧ n ≤ 8202) ∨ n = 8232 ∨ n = 8233 ∨ n = 8239 ∨
    n = 8287 ∨ n = 12288

/-- `re.sub(r"\s+", "", s)`: delete every whitespace character. -/
def stripAllWS (s : String) : String :=
  String.mk (s.data.filter (fun c => ¬ isPyWhitespace c))

/-- `str.strip()`: drop leading and trailing whitespace. -/
def pyStrip (s : String) : String :=
  String.mk (((s.data.dropWhile isPyWhitespace).reverse.dropWhile
    isPyWhitespace).reverse)

/-! ## Japanese token analysis (`app/core/analyze/japanese_analyzer.py`) -/

/-- `MAX_STEPS` (line 20): bound on agent-loop repair rounds. -/
def MAX_STEPS : Nat := 3

/-- One token dict as produced by the LLM; `none` = key absent from the dict
(`json_repair` output is an arbitrary JSON object). -/
structure RawToken where
  text : Option String
  furigana : Option String
  romaji : Option String
  ttype : Option String
deriving DecidableEq, Repr

/-- One element of the parsed LLM list: a JSON object, or any non-dict JSON
value (`_validate_result` rejects those at line 376). -/
inductive JItem where
  | dict (fields : RawToken)
  | nondict
deriving DecidableEq, Repr

/-- `item.get("text", "")` used when concatenating (line 383). -/
def itemText : JItem → String
  | JItem.dict f => f.text.getD ""
  | JItem.nondict => ""

/-- Whether an item is a dict carrying all of `text`, `furigana`, `romaji`,
`type` (lines 374–380). -/
def hasRequiredFields : JItem → Bool
  | JItem.dict f =>
    f.text.isSome && f.furigana.isSome && f.romaji.isSome && f.ttype.isSome
  | JItem.nondict => false

/-- The `is_valid` component of `JapaneseAnalyzer._validate_result`
(lines 358–431); the accompanying error message only feeds the repair prompt
and is not modelled.  An empty list fails (line 370); a non-dict item or a
missing field fails (lines 374–380); then the whitespace-stripped
concatenation of `text` fields must match the whitespace-stripped original in
length (line 388) and content (line 420 — `difflib.unified_diff` of two
distinct one-line sequences is never empty, so unequal content always
returns `False`). -/
def validate_result (original_text : String) (result : List JItem) : Bool :=
  if result = [] then false
  else if ¬ result.all hasRequiredFields then false
  else
    let result_text := String.join (result.map itemText)
    let original_cleaned := stripAllWS original_text
    let result_cleaned := stripAllWS result_text
    if original_cleaned.length ≠ result_cleaned.length then false
    else if original_cleaned ≠ result_cleaned then false
    else true

/-- One LLM reply inside the agent loop: empty content
(`raise ValueError("LLM返回空结果")`, line 310 — propagates out of the loop),
content that fails `json_repair` / is not a list (caught at line 341, repair
prompt appended, loop continues, `last_result` untouched), or a parsed list. -/
inductive LLMResponse where
  | empty
  | unparseable
  | parsed (items : List JItem)
deriving DecidableEq, Repr

/-- The agent loop of `_analyze_with_agent_loop` (lines 296–356) over the
successive LLM replies of one call-site trace.  `Except.error` is an
exception escaping the loop; exhausting the replies models exhausting
`range(MAX_STEPS)` and returns `last_result if last_result else []`. -/
def agent_loop_go (text : String) (last_result : Option (List JItem)) :
    List LLMResponse → Except String (List JItem)
  | [] => Except.ok (match last_result with
      | some r => if r = [] then [] else r
      | none => [])
  | LLMResponse.empty :: _ => Except.error "LLM返回空结果"
  | LLMResponse.unparseable :: rest => agent_loop_go text last_result rest
  | LLMResponse.parsed items :: rest =>
    if validate_result text items then Except.ok items
    else agent_loop_go text (some items) rest

/-- `_analyze_with_agent_loop`: at most `MAX_STEPS` LLM calls. -/
def analyze_with_agent_loop (text : String) (resps : List LLMResponse) :
    Except String (List JItem) :=
  agent_loop_go text none (resps.take MAX_STEPS)

/-- The per-character degradation of `analyze_text`'s `except` arm
(lines 70–75): one token per character that survives `char.strip()`, with
empty furigana and romaji and type `"unknown"`. -/
def per_char_fallback (text : String) : List JItem :=
  (text.data.filter (fun c => ¬ isPyWhitespace c)).map (fun c =>
    JItem.dict ⟨some (String.mk [c]), some "", some "", some "unknown"⟩)

/-- `JapaneseAnalyzer.analyze_text` (lines 52–75): blank input returns `[]`;
otherwise the agent loop runs, and only an escaping exception produces the
per-character fallback. -/
def analyze_text (text : String) (resps : List LLMResponse) : List JItem :=
  if text = "" ∨ pyStrip text = "" then []
  else
    match analyze_with_agent_loop text resps with
    | Except.ok r => r
    | Except.error _ => per_char_fallback text

/-! ## Subtitle content endpoint (`app/routers/subtitle.py`,
`get_subtitle_content`, lines 86–148)

The filesystem is an explicit map from paths to `none` (file absent),
`some none` (present but `json.load` / `open` raises — the 500 arm), or
`some (some content)` where `content` stands for the parsed JSON document. -/

/-- An HTTP outcome of the content endpoint. -/
inductive ContentResponse where
  | notFound (detail : String)
  | badRequest (detail : String)
  | serverError (detail : String)
  | ok (task_id : String) (content : List String)
deriving DecidableEq, Repr

/-- Python `task.error or "任务失败"` (line 105): `None` and `""` both fall
back to the default. -/
def pyOrStr (e : Option String) (d : String) : String :=
  match e with
  | some s => if s = "" then d else s
  | none => d

/-- `get_subtitle_content`: 404 when the task id is unknown; 400 when the
task is Failed or Cancelled; `{task_id, content: []}` when it is neither of
those nor Completed; for a Completed task, 404 when `output_path` is unset
(`if not task.output_path` — `None` and `""` are both falsy) or the file is
missing, 500 when reading/parsing raises, else the parsed JSON content. -/
def get_subtitle_content (tid : String) (task : Option Task)
    (fs : String → Option (Option (List String))) : ContentResponse :=
  match task with
  | none => ContentResponse.notFound "任务不存在"
  | some t =>
    if t.status = TaskStatus.failed ∨ t.status = TaskStatus.cancelled then
      ContentResponse.badRequest ("任务失败: " ++ pyOrStr t.error "任务失败")
    else if t.status ≠ TaskStatus.completed then
      ContentResponse.ok tid []
    else if t.output_path = none ∨ t.output_path = some "" then
      ContentResponse.notFound "缓存文件路径不存在"
    else
      match fs ((t.output_path).getD "") with
      | none => ContentResponse.notFound "缓存文件不存在"
      | some none => ContentResponse.serverError "从缓存读取 JSON 文件失败"
      | some (some content) => ContentResponse.ok tid content

/-! ## Step-cache keys

### ASR (`app/core/asr/base.py` + `app/core/asr/whisperx.py`)

`BaseASR.run` (line 124) builds `f"{self.__class__.__name__}:{self._get_key()}"`;
`WhisperXASR._get_key` (lines 76–85) joins the CRC32 hex of the audio bytes
with model, language, device and compute type. -/

/-- One step of zlib's CRC-32 (polynomial `0xEDB88320`), one input byte. -/
def crc32Step (crc b : Nat) : Nat :=
  let c := (crc ^^^ b) % 4294967296
  (List.range 8).foldl
    (fun c _ => if c % 2 = 1 then (c / 2) ^^^ 0xEDB88320 else c / 2) c

/-- `zlib.crc32(data) & 0xFFFFFFFF` (line 98 of `base.py`). -/
def crc32 (data : List Nat) : Nat :=
  (data.foldl (fun c b => crc32Step c b) 0xFFFFFFFF) ^^^ 0xFFFFFFFF

/-- One lowercase hexadecimal digit. -/
def hexDigit (n : Nat) : Char :=
  if n < 10 then Char.ofNat (48 + n) else Char.ofNat (87 + n)

/-- Python `format(value, "08x")` for a 32-bit value (line 99 of `base.py`). -/
def toHex8 (n : Nat) : String :=
  String.mk ((List.range 8).map (fun i => hexDigit ((n >>> ((7 - i) * 4)) % 16)))

/-- `self.crc32_hex` computed in `BaseASR._set_data`. -/
def crc32_hex (data : List Nat) : String :=
  toHex8 (crc32 data)

/-- The WhisperX constructor options that reach `_get_key`. -/
structure WhisperXConfig where
  model : String
  language : String
  device : String
  compute_type : String
deriving DecidableEq, Repr

/-- `WhisperXASR.__init__` forces `float32` on CPU (lines 70–74). -/
def whisperx_effective_compute_type (cfg : WhisperXConfig) : String :=
  if cfg.device = "cpu" ∧ cfg.compute_type ≠ "float32" then "float32"
  else cfg.compute_type

/-- `WhisperXASR._get_key` (lines 76–85): `":".join(key_parts)`. -/
def whisperx_get_key (audio : List Nat) (cfg : WhisperXConfig) : String :=
  crc32_hex audio ++ ":" ++ cfg.model ++ ":" ++ cfg.language ++ ":" ++
    cfg.device ++ ":" ++ whisperx_effective_compute_type cfg

/-- The full ASR cache key of `BaseASR.run` (line 124): class name prefix. -/
def asr_cache_key (audio : List Nat) (cfg : WhisperXConfig) : String :=
  "WhisperXASR:" ++ whisperx_get_key audio cfg

/-- Modelled from the spec: the spec's §4.3 cache key is
`sha256(step_name || ":" || content_fingerprint || ":" || sorted-config)`,
rendered — as every digest in this repo's ecosystem — as a 64-character
lowercase hexadecimal string.  A string can only be such a digest if it is
64 hex characters long; the colon-joined plain keys the code builds are not. -/
def isSha256HexDigest (s : String) : Bool :=
  s.length = 64 && s.data.all (fun c =>
    (48 ≤ c.toNat ∧ c.toNat ≤ 57) ∨ (97 ≤ c.toNat ∧ c.toNat ≤ 102))

/-! ### Subtitle-processing steps
(`app/services/subtitle_service.py`, `_get_cache_file_path`, lines 42–112) -/

/-- The configuration fields of `CoreSubtitleConfig`
(`app/core/entities.py`) consumed by `_get_cache_file_path`; the two enum
fields are carried as their `.value` strings. -/
structure SubtitleCfg where
  max_word_count_cjk : Nat
  max_word_count_english : Nat
  llm_model : Option String
  custom_prompt_text : Option String
  translator_service : Option String
  target_language : Option String
  need_reflect : Bool
  need_split : Bool
  need_analyze_japanese : Bool
  need_translate : Bool
deriving DecidableEq, Repr

/-- The per-step `config_parts` list (lines 60–105).  An unknown step name
falls through every `elif` with `config_parts = []`. -/
def config_parts (step : String) (cfg : SubtitleCfg) : List String :=
  if step = "split" then
    ["cjk" ++ toString cfg.max_word_count_cjk,
     "en" ++ toString cfg.max_word_count_english,
     pyOrStr cfg.llm_model "default"]
  else if step = "optimize" then
    [pyOrStr cfg.llm_model "default",
     match cfg.custom_prompt_text with
     | some s => if s = "" then "default" else String.mk (s.data.take 20)
     | none => "default"]
  else if step = "analyze_japanese" then
    [pyOrStr cfg.llm_model "default"]
  else if step = "translate" then
    -- the `if config.translator_service` tests reject only `None`: an enum
    -- member is always truthy, so `.value` passes through via `getD`
    [(cfg.translator_service).getD "default",
     (cfg.target_language).getD "default",
     pyOrStr cfg.llm_model "default",
     if cfg.need_reflect then "reflect" else "normal"]
  else if step = "add_timestamps" then
    ["v1"]
  else if step = "result" then
    [if cfg.need_split then "cjk" ++ toString cfg.max_word_count_cjk
      else "nosplit",
     if cfg.need_split then "en" ++ toString cfg.max_word_count_english
      else "nosplit",
     pyOrStr cfg.llm_model "default",
     if cfg.need_analyze_japanese then "analyze" else "noanalyze",
     if cfg.need_translate ∧ cfg.translator_service ≠ none then
       (cfg.translator_service).getD "notranslate" else "notranslate",
     if cfg.need_translate ∧ cfg.target_language ≠ none then
       (cfg.target_language).getD "notranslate" else "notranslate"]
  else []

/-- `"_".join(config_parts).replace("/", "_").replace("\\", "_")`
(line 107); both replacements are single-character, so a character map is
exact. -/
def config_hash (step : String) (cfg : SubtitleCfg) : String :=
  String.mk ((String.intercalate "_" (config_parts step cfg)).data.map
    (fun c => if c = '/' ∨ c = '\x5c' then '_' else c))

/-- The cache file name `f"{file_stem}_{step}_{config_hash}.json"`
(line 110); `file_stem` is `Path(subtitle_path).stem`, passed here already
extracted. -/
def subtitle_cache_filename (file_stem step : String) (cfg : SubtitleCfg) :
    String :=
  file_stem ++ "_" ++ step ++ "_" ++ config_hash step cfg ++ ".json"

/-! ## Failure propagation to the root task
(`app/services/video_download_service.py`)

The root task of the pipeline is the `video_download` task created by
`POST /video/analyze`; `_process_transcribe_task` and
`_process_subtitle_task` watch a child row and issue one terminal
`update_task` on the root.  The wait loop's observation of the child is
summarised as a `ChildOutcome`. -/

/-- What the polling loop of `_process_transcribe_task` /
`_process_subtitle_task` observed about the child task. -/
inductive ChildOutcome where
  | missing
  | failed (error : Option String)
  | completedWithOutput (output_path : String)
  | timeout
  | abnormal
deriving DecidableEq, Repr

/-- The root update issued by `_process_transcribe_task` (lines 324–434):
a Failed transcribe child marks the root Failed with the child's error
(lines 356–366, default `"转录失败"` per line 357); timeout marks the root
Failed (lines 402–411); a missing child or an abnormal status just returns
(lines 349–353, 392–399); a completed child chains into subtitle processing
without a terminal root update. -/
def transcribe_root_update : ChildOutcome → Option UpdateArgs
  | ChildOutcome.missing => none
  | ChildOutcome.failed e =>
    some { status := some TaskStatus.failed, progress := none,
           message := some "音频下载完成，但转录失败",
           error := some ("转录失败: " ++ pyOrStr e "转录失败"),
           output_path := none }
  | ChildOutcome.completedWithOutput _ => none
  | ChildOutcome.timeout =>
    some { status := some TaskStatus.failed, progress := none,
           message := some "音频下载完成，但转录超时",
           error := some "转录任务超时", output_path := none }
  | ChildOutcome.abnormal => none

/-- The root update issued by `_process_subtitle_task` (lines 505–641):
a Failed subtitle child marks the root **Completed** at progress 100 with a
warning message carrying the child's error (lines 533–546, default
`"字幕处理失败"`); timeout and success likewise mark the root Completed
(lines 573–585, 613–626); a missing child or an abnormal status just
returns.  `audio` is the root's own `output_path` re-read before the update
(`None` leaves the column untouched). -/
def subtitle_root_update (outcome : ChildOutcome) (audio : Option String) :
    Option UpdateArgs :=
  match outcome with
  | ChildOutcome.missing => none
  | ChildOutcome.failed e =>
    some { status := some TaskStatus.completed, progress := some 100,
           message := some ("音频下载和转录完成，但字幕处理失败: " ++
             pyOrStr e "字幕处理失败"),
           error := none, output_path := audio }
  | ChildOutcome.completedWithOutput _ =>
    some { status := some TaskStatus.completed, progress := some 100,
           message := some "音频下载、转录和字幕处理完成",
           error := none, output_path := audio }
  | ChildOutcome.timeout =>
    some { status := some TaskStatus.completed, progress := some 100,
           message := some "音频下载和转录完成，但字幕处理超时",
           error := none, output_path := audio }
  | ChildOutcome.abnormal => none

/-- The root row after the watcher's update: unchanged when no update is
issued. -/
def root_after (t : Task) (u : Option UpdateArgs) (now : Nat) : Task :=
  match u with
  | none => t
  | some a => update_task_apply t a now

/-! ## Helper lemmas -/

/-- Appending to a non-empty string yields a non-empty string. -/
theorem append_ne_empty (s t : String) (h : s.data ≠ []) : s ++ t ≠ "" := by
  intro hc
  apply h
  have hd : (s ++ t).data = s.data ++ t.data := String.data_append s t
  have happ : s.data ++ t.data = ([] : List Char) := by
    rw [← hd, hc]
  exact (List.append_eq_nil.mp happ).1

/-- `update_task_apply` with a non-empty `error` argument always lands on
status `failed` with `completed_at` stamped, whatever else the call sets. -/
theorem update_apply_error_failed (t : Task) (a : UpdateArgs) (e : String)
    (now : Nat) (he : a.error = some e) (hne : e ≠ "") :
    (update_task_apply t a now).status = TaskStatus.failed ∧
      (update_task_apply t a now).completed_at ≠ none := by
  unfold update_task_apply
  rw [he]
  set t1 := (match a.status with
    | none => t
    | some s => applyStatus t s now) with ht1
  set t2 := (match a.progress with
    | none => t1
    | some p => { t1 with progress := p }) with ht2
  set t3 := (match a.message with
    | none => t2
    | some m => { t2 with message := some m }) with ht3
  have herr : (applyError t3 e now).status = TaskStatus.failed ∧
      (applyError t3 e now).completed_at ≠ none := by
    unfold applyError
    simp only [hne, if_true, ne_eq, not_false_iff]
    split
    · exact ⟨rfl, by simp⟩
    · rename_i hcomp
      refine ⟨rfl, ?_⟩
      simpa using hcomp
  rcases a.output_path with _ | p
  · exact herr
  · exact herr

/-! ## C1 — status transition enforcement at write time -/

/-- C1 (counterexample): `TaskManager.update_task` does not reject the
transition Completed→Running — updating a task whose stored status is
`completed` with `status=running` leaves it stored as `running`, so the
claimed write-time enforcement does not exist. -/
theorem C1_counterexample :
    (update_task_apply
      ⟨TaskStatus.completed, 100, none, none, none, some 0, some 1⟩
      ⟨some TaskStatus.running, none, none, none, none⟩ 2).status =
        TaskStatus.running := by
  decide

/-- C1 (amended): the store enforces no transition rule at all — absent an
`error` argument, `update_task` unconditionally writes whatever status is
supplied, back-edges such as Completed→Running included. -/
theorem C1_amended (t : Task) (a : UpdateArgs) (s : TaskStatus) (now : Nat)
    (hs : a.status = some s) (he : a.error = none) :
    (update_task_apply t a now).status = s := by
  unfold update_task_apply
  rw [hs, he]
  have hstat : (applyStatus t s now).status = s := by
    simp only [applyStatus]
    split_ifs <;> rfl
  set t1 := applyStatus t s now with ht1
  rcases a.progress with _ | p <;> rcases a.message with _ | m <;>
    rcases a.output_path with _ | q <;> simpa using hstat

/-- C1 witness: the amended theorem applied at the counterexample's input. -/
theorem C1_amended_witness :
    (update_task_apply
      ⟨TaskStatus.completed, 100, none, none, none, some 0, some 1⟩
      ⟨some TaskStatus.running, none, none, none, none⟩ 2).status =
        TaskStatus.running :=
  C1_amended _ _ _ _ rfl rfl

/-! ## C10 — error argument forces Failed; missing id is a no-op -/

/-- C10: a call to `update_task` on an existing task with a non-empty error
string leaves the task Failed with `completed_at` set, overriding any status
passed in the same call; and a call on an unknown `task_id` returns with the
store unchanged and raises nothing. -/
theorem C10_error_and_missing :
    (∀ (t : Task) (a : UpdateArgs) (e : String) (now : Nat),
      a.error = some e → e ≠ "" →
        (update_task_apply t a now).status = TaskStatus.failed ∧
          (update_task_apply t a now).completed_at ≠ none) ∧
    (∀ (store : String → Option Task) (tid : String) (a : UpdateArgs)
      (now : Nat), store tid = none → update_task store tid a now = store) := by
  constructor
  · intro t a e now he hne
    exact update_apply_error_failed t a e now he hne
  · intro store tid a now hmiss
    unfold update_task
    rw [hmiss]

/-- C10 witness: a Completed task updated with `status=completed` but
`error="boom"` ends up Failed with a completion stamp, and an update against
an empty store is the identity. -/
theorem C10_witness :
    ((update_task_apply
        ⟨TaskStatus.completed, 100, none, none, none, some 0, some 1⟩
        ⟨some TaskStatus.completed, some 7, none, some "boom", none⟩ 2).status =
          TaskStatus.failed ∧
      (update_task_apply
        ⟨TaskStatus.completed, 100, none, none, none, some 0, some 1⟩
        ⟨some TaskStatus.completed, some 7, none, some "boom", none⟩
        2).completed_at ≠ none) ∧
    update_task (fun _ => none) "t" ⟨none, none, none, some "boom", none⟩ 3 =
      (fun _ => none) :=
  ⟨C10_error_and_missing.1 _ _ "boom" 2 rfl (by decide),
   C10_error_and_missing.2 _ "t" _ 3 rfl⟩

/-! ## C7 — edge upsert -/

/-- Writing `(tid, rt, b)` over a store that was just written with
`(tid, rt, a)` is the same as writing `(tid, rt, b)` directly. -/
theorem set_rel_overwrite (rows : List Relation) (tid rt a b : String) :
    set_task_relation (set_task_relation rows tid rt a) tid rt b =
      set_task_relation rows tid rt b := by
  induction rows with
  | nil => simp [set_task_relation]
  | cons r rs ih =>
    by_cases h : r.task_id = tid ∧ r.relation_type = rt
    · simp [set_task_relation, h]
    · simp [set_task_relation, h, ih]

/-- Unfolding `countKey` over a cons cell. -/
theorem countKey_cons (r : Relation) (rows : List Relation) (tid rt : String) :
    countKey (r :: rows) tid rt =
      (if r.task_id = tid ∧ r.relation_type = rt then 1 else 0) +
        countKey rows tid rt := by
  by_cases h : r.task_id = tid ∧ r.relation_type = rt
  · simp [countKey, List.filter_cons, h]
    omega
  · simp [countKey, List.filter_cons, h]

/-- After an upsert, the number of rows under the written key is one if the
key was fresh and unchanged otherwise. -/
theorem countKey_set (rows : List Relation) (tid rt rel : String) :
    countKey (set_task_relation rows tid rt rel) tid rt =
      max 1 (countKey rows tid rt) := by
  induction rows with
  | nil => simp [set_task_relation, countKey]
  | cons r rs ih =>
    by_cases h : r.task_id = tid ∧ r.relation_type = rt
    · simp only [set_task_relation, if_pos h]
      rw [countKey_cons, countKey_cons]
      simp only [h.1, h.2, and_self, if_true]
      rw [Nat.max_eq_right (by omega)]
    · simp only [set_task_relation, if_neg h]
      rw [countKey_cons, countKey_cons, ih]
      simp only [if_neg h, Nat.zero_add]

/-- C7: `set_task_relation` is an idempotent upsert keeping at most one row
per `(task_id, relation_type)`: writing the same triple `n ≥ 1` times equals
writing it once; re-writing the key with a new target overwrites in place;
and the row count under the written key becomes `max 1 (previous count)`,
so no second row is ever created. -/
theorem C7_edge_upsert :
    (∀ (rows : List Relation) (tid rt rel : String) (n : Nat), 1 ≤ n →
      (fun s => set_task_relation s tid rt rel)^[n] rows =
        set_task_relation rows tid rt rel) ∧
    (∀ (rows : List Relation) (tid rt a b : String),
      set_task_relation (set_task_relation rows tid rt a) tid rt b =
        set_task_relation rows tid rt b) ∧
    (∀ (rows : List Relation) (tid rt rel : String),
      countKey (set_task_relation rows tid rt rel) tid rt =
        max 1 (countKey rows tid rt)) := by
  refine ⟨?_, set_rel_overwrite, countKey_set⟩
  intro rows tid rt rel n hn
  induction n with
  | zero => omega
  | succ m ih =>
    rw [Function.iterate_succ_apply']
    rcases Nat.eq_zero_or_pos m with h0 | hpos
    · subst h0; simp
    · rw [ih hpos, set_rel_overwrite]

/-- C7 witness: three writes of one triple on a one-row store equal a single
write, a re-targeted write overwrites, and the key count stays 1. -/
theorem C7_witness :
    ((fun s => set_task_relation s "root" "transcribe_task_id" "t1")^[3]
        [⟨"root", "subtitle_task_id", "s1"⟩] =
      set_task_relation [⟨"root", "subtitle_task_id", "s1"⟩]
        "root" "transcribe_task_id" "t1") ∧
    (set_task_relation
        (set_task_relation [] "root" "transcribe_task_id" "t1")
        "root" "transcribe_task_id" "t2" =
      set_task_relation [] "root" "transcribe_task_id" "t2") ∧
    countKey
      (set_task_relation [⟨"root", "transcribe_task_id", "t0"⟩]
        "root" "transcribe_task_id" "t1") "root" "transcribe_task_id" =
      max 1 (countKey [⟨"root", "transcribe_task_id", "t0"⟩]
        "root" "transcribe_task_id") :=
  ⟨C7_edge_upsert.1 _ "root" "transcribe_task_id" "t1" 3 (by decide),
   C7_edge_upsert.2.1 [] "root" "transcribe_task_id" "t1" "t2",
   C7_edge_upsert.2.2 _ "root" "transcribe_task_id" "t1"⟩

/-! ## C4 — the token-analysis validator -/

/-- C4: `_validate_result` accepts exactly the non-empty lists of complete
token dicts whose concatenated `text` fields, with all whitespace removed,
equal the whitespace-stripped segment text; in particular every accepted
result satisfies the whitespace-insensitive equality. -/
theorem C4_token_validator (original : String) (result : List JItem) :
    validate_result original result = true ↔
      (result ≠ [] ∧ (∀ i ∈ result, hasRequiredFields i = true) ∧
        stripAllWS (String.join (result.map itemText)) = stripAllWS original) := by
  simp only [validate_result]
  rcases eq_or_ne result [] with h1 | h1
  · simp [h1]
  rw [if_neg h1]
  by_cases h2 : result.all hasRequiredFields = true
  · rw [if_neg (not_not_intro h2)]
    by_cases h3 : stripAllWS original =
        stripAllWS (String.join (List.map itemText result))
    · rw [if_neg (fun hcon => hcon (congrArg String.length h3)),
        if_neg (not_not_intro h3)]
      simp only [true_iff]
      exact ⟨h1, List.all_eq_true.mp h2, h3.symm⟩
    · have hv : (if (stripAllWS original).length ≠
            (stripAllWS (String.join (List.map itemText result))).length then
            false
          else if stripAllWS original ≠
              stripAllWS (String.join (List.map itemText result)) then false
          else true) = false := by
        by_cases hl : (stripAllWS original).length =
            (stripAllWS (String.join (List.map itemText result))).length
        · rw [if_neg (not_not_intro hl), if_pos h3]
        · rw [if_pos hl]
      rw [hv]
      constructor
      · intro hf
        exact Bool.noConfusion hf
      · rintro ⟨-, -, heq⟩
        exact (h3 heq.symm).elim
  · rw [if_pos (by simpa using h2)]
    constructor
    · intro hf
      exact Bool.noConfusion hf
    · rintro ⟨-, hall, -⟩
      exact (h2 (List.all_eq_true.mpr hall)).elim

/-- C4 witness: the validator at concrete accepted and rejected inputs. -/
theorem C4_witness :
    (validate_result "母親 が"
        [JItem.dict ⟨some "母親", some "ははおや", some "hahaoya", some "noun"⟩,
         JItem.dict ⟨some "が", some "が", some "ga", some "particle"⟩] = true ↔
      ([JItem.dict ⟨some "母親", some "ははおや", some "hahaoya", some "noun"⟩,
        JItem.dict ⟨some "が", some "が", some "ga", some "particle"⟩] ≠
          ([] : List JItem) ∧
        (∀ i ∈ [JItem.dict ⟨some "母親", some "ははおや", some "hahaoya",
            some "noun"⟩,
          JItem.dict ⟨some "が", some "が", some "ga", some "particle"⟩],
          hasRequiredFields i = true) ∧
        stripAllWS (String.join
          ([JItem.dict ⟨some "母親", some "ははおや", some "hahaoya",
              some "noun"⟩,
            JItem.dict ⟨some "が", some "が", some "ga",
              some "particle"⟩].map itemText)) = stripAllWS "母親 が")) :=
  C4_token_validator "母親 が" _

/-! ## C3 — behaviour after `MAX_STEPS` failed repair rounds -/

/-- C3 (counterexample): with every one of the three LLM replies parsing to
a token list that drops the character `b` of segment `"ab"`, the agent loop
returns that last invalid list — not the documented one-token-per-character
fallback. -/
theorem C3_counterexample :
    analyze_text "ab"
      [LLMResponse.parsed [JItem.dict ⟨some "a", some "x", some "y", some "noun"⟩],
       LLMResponse.parsed [JItem.dict ⟨some "a", some "x", some "y", some "noun"⟩],
       LLMResponse.parsed [JItem.dict ⟨some "a", some "x", some "y", some "noun"⟩]] =
      [JItem.dict ⟨some "a", some "x", some "y", some "noun"⟩] ∧
    analyze_text "ab"
      [LLMResponse.parsed [JItem.dict ⟨some "a", some "x", some "y", some "noun"⟩],
       LLMResponse.parsed [JItem.dict ⟨some "a", some "x", some "y", some "noun"⟩],
       LLMResponse.parsed [JItem.dict ⟨some "a", some "x", some "y", some "noun"⟩]] ≠
      per_char_fallback "ab" := by
  constructor
  · rfl
  · decide

/-- C3 (amended): after `MAX_STEPS = 3` repair rounds whose parsed results
all fail validation, `_analyze_with_agent_loop` returns the *last parsed
result* (or `[]` when it is empty); the per-character degradation — one
token per non-whitespace character, with empty furigana and romaji — is
produced only when an exception (e.g. an empty LLM reply) escapes the loop
into `analyze_text`'s handler. -/
theorem C3_amended :
    (∀ (text : String) (i1 i2 i3 : List JItem) (rest : List LLMResponse),
      text ≠ "" → pyStrip text ≠ "" →
      validate_result text i1 = false → validate_result text i2 = false →
      validate_result text i3 = false →
      analyze_text text (LLMResponse.parsed i1 :: LLMResponse.parsed i2 ::
          LLMResponse.parsed i3 :: rest) =
        (if i3 = [] then [] else i3)) ∧
    (∀ (text : String) (rest : List LLMResponse),
      text ≠ "" → pyStrip text ≠ "" →
      analyze_text text (LLMResponse.empty :: rest) = per_char_fallback text) ∧
    (∀ text : String,
      (per_char_fallback text).length = (stripAllWS text).length ∧
      ∀ tok ∈ per_char_fallback text, ∃ c : Char,
        tok = JItem.dict ⟨some (String.mk [c]), some "", some "", some "unknown"⟩) := by
  refine ⟨?_, ?_, ?_⟩
  · intro text i1 i2 i3 rest h1 h2 hv1 hv2 hv3
    simp [analyze_text, analyze_with_agent_loop, MAX_STEPS, agent_loop_go,
      h1, h2, hv1, hv2, hv3]
  · intro text rest h1 h2
    simp [analyze_text, analyze_with_agent_loop, MAX_STEPS, agent_loop_go,
      h1, h2]
  · intro text
    constructor
    · simp [per_char_fallback, stripAllWS]
    · intro tok htok
      rcases List.mem_map.mp htok with ⟨c, _, hc⟩
      exact ⟨c, hc.symm⟩

/-- C3 witness: the amended theorem at concrete inputs — three invalid
parsed replies yield the last one; an empty reply yields the per-character
fallback for `"ab"`. -/
theorem C3_amended_witness :
    analyze_text "ab"
      [LLMResponse.parsed [], LLMResponse.parsed [],
       LLMResponse.parsed
         [JItem.dict ⟨some "ba", some "", some "", some "noun"⟩]] =
      [JItem.dict ⟨some "ba", some "", some "", some "noun"⟩] ∧
    analyze_text "ab" [LLMResponse.empty] = per_char_fallback "ab" := by
  constructor
  · have h := C3_amended.1 "ab" [] []
      [JItem.dict ⟨some "ba", some "", some "", some "noun"⟩] []
      (by decide) (by decide) (by decide) (by decide) (by decide)
    simpa using h
  · exact C3_amended.2.1 "ab" [] (by decide) (by decide)

/-! ## C5 — progress reconciliation bands -/

/-- C5: before any subtitle child task id is bound — i.e. during the whole
download and transcription phases — `_get_task_status_data` does not map the
child progress into a band at all: it raises `UnboundLocalError` on
`subtitle_task_obj` (assigned only under `if subtitle_task_id:` at line 126,
referenced unconditionally at line 153).  The same state with a subtitle id
bound shows the intended download band, which moreover is capped at 29, not
the claimed 30. -/
theorem C5_reconciler_crash :
    unified_progress ⟨TaskStatus.running, 50, none, none, none, some 0, none⟩
        none false none =
      Except.error "UnboundLocalError: subtitle_task_obj" ∧
    unified_progress ⟨TaskStatus.running, 50, none, none, none, some 0, none⟩
        none true none = Except.ok 15 ∧
    unified_progress ⟨TaskStatus.running, 100, none, none, none, some 0, none⟩
        none true none = Except.ok 29 :=
  ⟨rfl, rfl, rfl⟩

/-! ## C6 — the subtitle content endpoint -/

/-- C6: `GET /subtitle/{task_id}/content` answers 404 for an unknown task,
400 carrying the error string for a Failed task, `{task_id, content: []}`
for a Pending/Running task, and the stored enriched JSON content for a
Completed task whose output file is present and readable. -/
theorem C6_content_endpoint :
    (∀ (tid : String) (fs : String → Option (Option (List String))),
      get_subtitle_content tid none fs = ContentResponse.notFound "任务不存在") ∧
    (∀ (tid : String) (t : Task) (fs : String → Option (Option (List String))),
      t.status = TaskStatus.failed →
      get_subtitle_content tid (some t) fs =
        ContentResponse.badRequest ("任务失败: " ++ pyOrStr t.error "任务失败")) ∧
    (∀ (tid : String) (t : Task) (fs : String → Option (Option (List String))),
      t.status = TaskStatus.pending ∨ t.status = TaskStatus.running →
      get_subtitle_content tid (some t) fs = ContentResponse.ok tid []) ∧
    (∀ (tid : String) (t : Task) (fs : String → Option (Option (List String)))
      (p : String) (c : List String),
      t.status = TaskStatus.completed → t.output_path = some p → p ≠ "" →
      fs p = some (some c) →
      get_subtitle_content tid (some t) fs = ContentResponse.ok tid c) := by
  refine ⟨fun tid fs => rfl, ?_, ?_, ?_⟩
  · intro tid t fs h
    simp [get_subtitle_content, h]
  · intro tid t fs h
    rcases h with h | h <;> simp [get_subtitle_content, h]
  · intro tid t fs p c hst hp hpne hfs
    simp [get_subtitle_content, hst, hp, hpne, hfs]

/-- C6 witness: the four arms at concrete tasks and a one-file filesystem. -/
theorem C6_witness :
    get_subtitle_content "x" none (fun _ => none) =
      ContentResponse.notFound "任务不存在" ∧
    get_subtitle_content "x"
        (some ⟨TaskStatus.failed, 0, none, some "boom", none, none, some 1⟩)
        (fun _ => none) =
      ContentResponse.badRequest ("任务失败: " ++
        pyOrStr (some "boom") "任务失败") ∧
    get_subtitle_content "x"
        (some ⟨TaskStatus.running, 40, none, none, none, some 0, none⟩)
        (fun _ => none) = ContentResponse.ok "x" [] ∧
    get_subtitle_content "x"
        (some ⟨TaskStatus.completed, 100, none, none, some "/out.json",
          some 0, some 1⟩)
        (fun q => if q = "/out.json" then some (some ["seg1"]) else none) =
      ContentResponse.ok "x" ["seg1"] :=
  ⟨C6_content_endpoint.1 "x" _,
   C6_content_endpoint.2.1 "x" _ _ rfl,
   C6_content_endpoint.2.2.1 "x" _ _ (Or.inr rfl),
   C6_content_endpoint.2.2.2 "x" _ _ "/out.json" ["seg1"] rfl rfl
     (by decide) (by simp)⟩

/-! ## C2 — failure propagation to the root task -/

/-- C2 (counterexample): a subtitle (enrich) child that ends Failed with
error `"boom"` leaves the root task **Completed** with its error column
untouched — Failed is not propagated for this stage. -/
theorem C2_counterexample :
    (root_after ⟨TaskStatus.running, 50, none, none, some "/a.mp3", some 0, none⟩
        (subtitle_root_update (ChildOutcome.failed (some "boom"))
          (some "/a.mp3")) 5).status = TaskStatus.completed ∧
    (root_after ⟨TaskStatus.running, 50, none, none, some "/a.mp3", some 0, none⟩
        (subtitle_root_update (ChildOutcome.failed (some "boom"))
          (some "/a.mp3")) 5).status ≠ TaskStatus.failed ∧
    (root_after ⟨TaskStatus.running, 50, none, none, some "/a.mp3", some 0, none⟩
        (subtitle_root_update (ChildOutcome.failed (some "boom"))
          (some "/a.mp3")) 5).error = none := by
  decide

/-- C2 (amended): a Failed transcribe child does propagate — the root is
marked Failed with the child's error behind a `"转录失败: "` prefix — but a
Failed subtitle/enrich child marks the root Completed at progress 100 with
only a warning message carrying the child's error. -/
theorem C2_amended :
    (∀ (t : Task) (e : Option String) (now : Nat),
      (root_after t (transcribe_root_update (ChildOutcome.failed e)) now).status =
          TaskStatus.failed ∧
        (root_after t (transcribe_root_update (ChildOutcome.failed e)) now).error =
          some ("转录失败: " ++ pyOrStr e "转录失败")) ∧
    (∀ (t : Task) (e : Option String) (audio : Option String) (now : Nat),
      (root_after t (subtitle_root_update (ChildOutcome.failed e) audio)
          now).status = TaskStatus.completed ∧
        (root_after t (subtitle_root_update (ChildOutcome.failed e) audio)
          now).progress = 100 ∧
        (root_after t (subtitle_root_update (ChildOutcome.failed e) audio)
          now).message =
          some ("音频下载和转录完成，但字幕处理失败: " ++ pyOrStr e "字幕处理失败")) := by
  constructor
  · intro t e now
    have hne : ("转录失败: " ++ pyOrStr e "转录失败") ≠ "" :=
      append_ne_empty _ _ (by decide)
    simp [root_after, transcribe_root_update, update_task_apply, applyStatus,
      applyError, hne]
  · intro t e audio now
    rcases audio with _ | ap <;>
      simp [root_after, subtitle_root_update, update_task_apply, applyStatus,
        applyError]

/-! ## C8 — step-cache keys -/

/-- C8 (counterexample): the ASR cache key is a plain colon-joined string —
class name, CRC32 hex, model, language, device, compute type — and the
subtitle-step cache name is `{stem}_{step}_{config}.json`; neither is a
SHA-256 hex digest. -/
theorem C8_counterexample :
    asr_cache_key [0] ⟨"large-v3", "auto", "cpu", "float32"⟩ =
      "WhisperXASR:d202ef8d:large-v3:auto:cpu:float32" ∧
    isSha256HexDigest
      (asr_cache_key [0] ⟨"large-v3", "auto", "cpu", "float32"⟩) = false ∧
    subtitle_cache_filename "audio" "analyze_japanese"
        ⟨25, 20, some "gpt-4o-mini", none, none, none, false, true, true,
          false⟩ =
      "audio_analyze_japanese_gpt-4o-mini.json" ∧
    isSha256HexDigest
      (subtitle_cache_filename "audio" "analyze_japanese"
        ⟨25, 20, some "gpt-4o-mini", none, none, none, false, true, true,
          false⟩) = false := by
  refine ⟨by decide, by decide, by decide, by decide⟩

/-- C8 (amended): the ASR cache key is
`"WhisperXASR:" ++ crc32_hex(audio) ++ ":" ++ model:language:device:compute`;
it depends on the audio only through its CRC32, so byte-identical audio under
the same configuration yields the same key, and changing the model (an
output-affecting option) with everything else fixed yields a different key. -/
theorem C8_amended :
    (∀ (a b : List Nat) (cfg : WhisperXConfig), crc32 a = crc32 b →
      asr_cache_key a cfg = asr_cache_key b cfg) ∧
    (∀ (audio : List Nat) (cfg cfg' : WhisperXConfig),
      cfg.language = cfg'.language → cfg.device = cfg'.device →
      cfg.compute_type = cfg'.compute_type → cfg.model ≠ cfg'.model →
      asr_cache_key audio cfg ≠ asr_cache_key audio cfg') := by
  constructor
  · intro a b cfg h
    simp only [asr_cache_key, whisperx_get_key, crc32_hex, h]
  · intro audio cfg cfg' hl hd hc hm heq
    apply hm
    have hect : whisperx_effective_compute_type cfg =
        whisperx_effective_compute_type cfg' := by
      simp only [whisperx_effective_compute_type, hd, hc]
    simp only [asr_cache_key, whisperx_get_key, hl, hd, hect] at heq
    have hdata := congrArg String.data heq
    simp only [String.data_append] at hdata
    have h1 := List.append_cancel_left hdata
    have h2 := List.append_cancel_right h1
    have h3 := List.append_cancel_right h2
    have h4 := List.append_cancel_right h3
    have h5 := List.append_cancel_right h4
    have h6 := List.append_cancel_right h5
    have h7 := List.append_cancel_right h6
    have h8 := List.append_cancel_left h7
    exact congrArg String.mk h8

/-- C8 witness: the amended key laws at concrete audio bytes and configs. -/
theorem C8_amended_witness :
    (crc32 [97, 98, 99] = crc32 [97, 98, 99] ∧
      asr_cache_key [97, 98, 99] ⟨"large-v3", "auto", "cpu", "float32"⟩ =
        asr_cache_key [97, 98, 99] ⟨"large-v3", "auto", "cpu", "float32"⟩) ∧
    asr_cache_key [0] ⟨"large-v3", "auto", "cpu", "float32"⟩ ≠
      asr_cache_key [0] ⟨"small", "auto", "cpu", "float32"⟩ :=
  ⟨⟨rfl, C8_amended.1 [97, 98, 99] [97, 98, 99]
      ⟨"large-v3", "auto", "cpu", "float32"⟩ rfl⟩,
   C8_amended.2 [0] ⟨"large-v3", "auto", "cpu", "float32"⟩
     ⟨"small", "auto", "cpu", "float32"⟩ rfl rfl rfl (by decide)⟩

/-! ## C9 — SSE stream semantics -/

/-- Every status event that is followed by anything else on the stream is
non-terminal: the loop breaks immediately after pushing a terminal event. -/
theorem streamEvents_nonterminal_before_last :
    ∀ (polls : List PollResult) (last : Option Snapshot) (s : Snapshot),
      SSEEvent.data s ∈ (streamEvents last polls).dropLast →
      isTerminal s.status = false := by
  intro polls
  induction polls with
  | nil =>
    intro last s h
    simp [streamEvents] at h
  | cons p rest ih =>
    intro last s h
    match p with
    | PollResult.ok s' =>
      by_cases hemit : last = none ∨ some s' ≠ last
      · rw [streamEvents, if_pos hemit] at h
        by_cases hterm : isTerminal s'.status
        · rw [if_pos hterm] at h
          simp at h
        · rw [if_neg hterm] at h
          cases hE : streamEvents (some s') rest with
          | nil => rw [hE] at h; simp at h
          | cons e es =>
            rw [hE, List.dropLast_cons₂] at h
            rcases List.mem_cons.mp h with h0 | h0
            · cases h0
              exact Bool.eq_false_iff.mpr hterm
            · apply ih (some s') s
              rw [hE]
              exact h0
      · rw [streamEvents, if_neg hemit] at h
        exact ih last s h
    | PollResult.httpError d =>
      rw [streamEvents] at h
      simp at h
    | PollResult.exn d =>
      rw [streamEvents] at h
      cases hE : streamEvents last rest with
      | nil => rw [hE] at h; simp at h
      | cons e es =>
        rw [hE, List.dropLast_cons₂] at h
        rcases List.mem_cons.mp h with h0 | h0
        · cases h0
        · apply ih last s
          rw [hE]
          exact h0

/-- C9: the stream loop (i) sleeps 1 second between polls, (ii) pushes the
first polled reconciled state unconditionally on connect, (iii) pushes
nothing when the `(status, progress)` pair equals the last pushed pair,
(iv) pushes the snapshot exactly when the pair changed, stopping right there
if its status is terminal, and (v) never pushes anything after a terminal
status event. -/
theorem C9_stream_semantics :
    poll_interval_seconds = 1 ∧
    (∀ (s : Snapshot) (rest : List PollResult),
      streamEvents none (PollResult.ok s :: rest) =
        SSEEvent.data s ::
          (if isTerminal s.status then [] else streamEvents (some s) rest)) ∧
    (∀ (l : Snapshot) (rest : List PollResult),
      streamEvents (some l) (PollResult.ok l :: rest) =
        streamEvents (some l) rest) ∧
    (∀ (l s : Snapshot) (rest : List PollResult), s ≠ l →
      streamEvents (some l) (PollResult.ok s :: rest) =
        SSEEvent.data s ::
          (if isTerminal s.status then [] else streamEvents (some s) rest)) ∧
    (∀ (polls : List PollResult) (last : Option Snapshot) (s : Snapshot),
      SSEEvent.data s ∈ (streamEvents last polls).dropLast →
      isTerminal s.status = false) := by
  refine ⟨rfl, ?_, ?_, ?_, streamEvents_nonterminal_before_last⟩
  · intro s rest
    rw [streamEvents, if_pos (Or.inl rfl)]
  · intro l rest
    rw [streamEvents, if_neg]
    rintro (h | h)
    · exact Option.noConfusion h
    · exact h rfl
  · intro l s rest hne
    rw [streamEvents, if_pos (Or.inr (fun hsome =>
      hne (Option.some.inj hsome)))]

/-- C9 witness: a concrete four-poll trace — the first snapshot is pushed on
connect, an unchanged poll pushes nothing, a changed pair pushes, and the
terminal Completed event ends the stream. -/
theorem C9_witness :
    poll_interval_seconds = 1 ∧
    streamEvents none
        [PollResult.ok ⟨TaskStatus.running, 10⟩,
         PollResult.ok ⟨TaskStatus.running, 10⟩,
         PollResult.ok ⟨TaskStatus.running, 40⟩,
         PollResult.ok ⟨TaskStatus.completed, 100⟩,
         PollResult.ok ⟨TaskStatus.completed, 100⟩] =
      [SSEEvent.data ⟨TaskStatus.running, 10⟩,
       SSEEvent.data ⟨TaskStatus.running, 40⟩,
       SSEEvent.data ⟨TaskStatus.completed, 100⟩] ∧
    (SSEEvent.data ⟨TaskStatus.running, 40⟩ ∈
        ([SSEEvent.data ⟨TaskStatus.running, 10⟩,
          SSEEvent.data ⟨TaskStatus.running, 40⟩,
          SSEEvent.data ⟨TaskStatus.completed, 100⟩] :
            List SSEEvent).dropLast →
      isTerminal TaskStatus.running = false) := by
  refine ⟨C9_stream_semantics.1, ?_, ?_⟩
  · rw [C9_stream_semantics.2.1 ⟨TaskStatus.running, 10⟩]
    rw [show (isTerminal TaskStatus.running) = false from rfl]
    rw [if_neg (by decide)]
    rw [C9_stream_semantics.2.2.1 ⟨TaskStatus.running, 10⟩]
    rw [C9_stream_semantics.2.2.2.1 ⟨TaskStatus.running, 10⟩
      ⟨TaskStatus.running, 40⟩ _ (by decide)]
    rw [if_neg (by decide)]
    rw [C9_stream_semantics.2.2.2.1 ⟨TaskStatus.running, 40⟩
      ⟨TaskStatus.completed, 100⟩ _ (by decide)]
    rw [if_pos (by decide)]
  · intro hmem
    have h := C9_stream_semantics.2.2.2.2
      [PollResult.ok ⟨TaskStatus.running, 10⟩,
       PollResult.ok ⟨TaskStatus.running, 40⟩,
       PollResult.ok ⟨TaskStatus.completed, 100⟩] none
      ⟨TaskStatus.running, 40⟩
    apply h
    decide

end SubtitleLearner
